import Mathlib

/-!
Verification of the EventHub async producer send pipeline
(`sdk/eventhub/azure-eventhub/azure/eventhub/aio/_producer_async.py`).

The producer's methods are embedded as pure state-passing functions.  Each
method returns the list of transport interactions it performed (its trace),
the producer state after the call, and `some e` when the Python code would
raise the exception `e` (mutations made before the raise are kept, as in
Python).  Time values (`time.time()`, deadlines) are modelled as rationals.
-/

namespace EH

/-- One event record: opaque payload plus the two mutations the send path can
apply to it (tracing instrumentation and a stamped partition-key annotation). -/
structure MsgRecord where
  payload : Nat
  traced : Bool
  partKeyAnn : Option String
deriving DecidableEq

/-- An AMQP message as the producer sees it: for a single `EventData` the body
is that one record, for an `EventDataBatch` the body is `message._body_gen`.
`on_send_complete` records whether the delivery-outcome callback is attached. -/
structure AmqpMessage where
  body : List MsgRecord
  on_send_complete : Bool
deriving DecidableEq

/-- `EventDataBatch`: its `_partition_key` and its batch `message`. -/
structure EventDataBatch where
  partition_key : Option String
  message : AmqpMessage
deriving DecidableEq

/-- Modelled from the spec: `uamqp.constants.MessageSendResult` is external to
the sampled sources; spec section 3 gives `DeliveryOutcome` status exactly
`\x7bOk, Timeout, Error\x7d`. -/
inductive MessageSendResult
  | Ok
  | Timeout
  | Error
deriving DecidableEq

/-- The exceptions the send path can raise (`ValueError` for the partition-key
mismatch, `OperationTimeoutError`, the closed-client error, and an arbitrary
transport condition carried by a delivery outcome). -/
inductive EHError
  | ValueError (msg : String)
  | OperationTimeoutError (msg : String)
  | ClientClosedError
  | TransportCondition (code : Nat)
deriving DecidableEq

/-- Transport interactions, recorded as a trace. -/
inductive TransportAction
  | openLink
  | setTimeout (ms : ℚ)
  | enqueue (msgs : List AmqpMessage)
  | wait
  | teardown
deriving DecidableEq

/-- The mutable producer fields used by the send path: `_unsent_events`,
`_outcome`, `_condition`, whether the handler link exists/is open,
`_handler._msg_timeout`, and the closed flag. -/
structure ProducerState where
  unsent_events : List AmqpMessage
  outcome : Option MessageSendResult
  condition : Option EHError
  handler_open : Bool
  handler_msg_timeout : ℚ
  closed : Bool
deriving DecidableEq

/-- What the transport link does during one `wait_async` window: which queued
messages it reports as still pending afterwards, and the single
`on_send_complete` invocation it performs (or `none` when the callback is not
invoked during this window). -/
structure LinkBehavior where
  pending : List AmqpMessage
  callback : Option (MessageSendResult × Option EHError)
deriving DecidableEq

/-- `EventHubProducer._on_outcome`: store the delivery outcome and condition. -/
def on_outcome (s : ProducerState) (outcome : MessageSendResult)
    (condition : Option EHError) : ProducerState :=
  { s with outcome := some outcome, condition := condition }

/-- The error raised when the deadline is exhausted: the last exception when
one exists, otherwise a fresh generic timeout error (the
`if last_exception ... else OperationTimeoutError(...)` of `_set_msg_timeout`). -/
def timeout_error_of : Option EHError → EHError
  | some e => e
  | none => EHError.OperationTimeoutError "Send operation timed out"

/-- `EventHubProducer._set_msg_timeout`: with no deadline (Python-falsy
`timeout_time`, i.e. `None` or `0.0`) do nothing; with an expired deadline
raise `timeout_error_of last_exception`; otherwise set the handler's message
timeout to the remaining time in milliseconds. -/
def set_msg_timeout (s : ProducerState) (timeout_time : Option ℚ) (now : ℚ)
    (last_exception : Option EHError) :
    List TransportAction × ProducerState × Option EHError :=
  match timeout_time with
  | none => ([], s, none)
  | some tt =>
    if tt = 0 then ([], s, none)
    else
      let remaining_time := tt - now
      if remaining_time ≤ 0 then ([], s, some (timeout_error_of last_exception))
      else ([TransportAction.setTimeout (remaining_time * 1000)],
            { s with handler_msg_timeout := remaining_time * 1000 }, none)

/-- `EventHubProducer._send_event_data`: when there are unsent events, open the
link, set the message timeout from the deadline, enqueue every unsent message,
wait for the send window (during which the link may invoke `_on_outcome`),
replace the unsent set with the link-reported pending messages, and map the
stored outcome: non-`Ok` with `Timeout` stores a timeout condition, and a
stored condition, when present, is raised.  With no unsent events, do nothing. -/
def send_event_data (s : ProducerState) (link : LinkBehavior)
    (timeout_time : Option ℚ) (now : ℚ) (last_exception : Option EHError) :
    List TransportAction × ProducerState × Option EHError :=
  if s.unsent_events.isEmpty then ([], s, none)
  else
    let s1 : ProducerState := { s with handler_open := true }
    match set_msg_timeout s1 timeout_time now last_exception with
    | (tr, s2, some e) => (TransportAction.openLink :: tr, s2, some e)
    | (tr, s2, none) =>
      let s3 : ProducerState := match link.callback with
        | some oc => on_outcome s2 oc.1 oc.2
        | none => s2
      let s4 : ProducerState := { s3 with unsent_events := link.pending }
      let trace := TransportAction.openLink :: tr ++
        [TransportAction.enqueue s.unsent_events, TransportAction.wait]
      if s4.outcome ≠ some MessageSendResult.Ok then
        let timeoutCondition : Option EHError :=
          some (EHError.OperationTimeoutError "Send operation timed out")
        let s5 : ProducerState :=
          if s4.outcome = some MessageSendResult.Timeout then
            { s4 with condition := timeoutCondition }
          else s4
        match s5.condition with
        | some c => (trace, s5, some c)
        | none => (trace, s5, none)
      else (trace, s4, none)

/-- The input shapes accepted by `_wrap_eventdata` / `send`: a single
`EventData` or `AmqpAnnotatedMessage` (its message), a pre-built
`EventDataBatch`, or an iterable of events. -/
inductive WrapInput
  | singleEvent (m : AmqpMessage)
  | batch (b : EventDataBatch)
  | seq (es : List MsgRecord)
deriving DecidableEq

/-- The value `_wrap_eventdata` returns: the (possibly key-stamped, traced)
single event, or the `EventDataBatch` wrapper. -/
inductive WrappedData
  | singleData (m : AmqpMessage)
  | batchData (b : EventDataBatch)
deriving DecidableEq

/-- The `.message` of the wrapper (what `send` stores into `_unsent_events`). -/
def WrappedData.message : WrappedData → AmqpMessage
  | .singleData m => m
  | .batchData b => b.message

/-- Modelled from the spec: `set_message_partition_key` (in `_utils.py`, not
among the sampled sources) stamps the partition key onto the message
(spec 4.1: "if a partition key is supplied, stamp it onto the record"). -/
def set_message_partition_key (m : AmqpMessage) (pk : String) : AmqpMessage :=
  { m with body := m.body.map (fun r => { r with partKeyAnn := some pk }) }

/-- Modelled from the spec: the tracing hook `trace_message` (in `_utils.py`,
not among the sampled sources) instruments one record (spec 4.1: "attach the
tracing hook to every record before sending"). -/
def trace_message (_span : Option Unit) (r : MsgRecord) : MsgRecord :=
  { r with traced := true }

/-- A Python-truthiness test for the caller-supplied partition key: `None` and
the empty string are falsy. -/
def pkTruthy : Option String → Bool
  | none => false
  | some s => s ≠ ""

/-- `wrapper_event_data.message.on_send_complete = self._on_outcome`. -/
def attach_on_outcome : WrappedData → WrappedData
  | .singleData m => .singleData { m with on_send_complete := true }
  | .batchData b => .batchData { b with message := { b.message with on_send_complete := true } }

/-- `EventHubProducer._wrap_eventdata`.  A single event is key-stamped (when
the key is truthy) and traced; a pre-built batch raises `ValueError` when a
truthy caller key differs from the batch's own key and is otherwise returned
with its contained records traced; an iterable is key-stamped, traced and
folded into a new batch carrying the caller key.  In every non-raising case
the delivery-outcome callback is attached to the wrapper's message. -/
def wrap_eventdata (event_data : WrapInput) (span : Option Unit)
    (partition_key : Option String) : Except EHError WrappedData :=
  match event_data with
  | .singleEvent m =>
    let outgoing : AmqpMessage :=
      if pkTruthy partition_key then
        set_message_partition_key m (partition_key.getD "")
      else m
    let wrapper : AmqpMessage :=
      { outgoing with body := outgoing.body.map (trace_message span) }
    Except.ok (attach_on_outcome (.singleData wrapper))
  | .batch b =>
    if pkTruthy partition_key ∧ partition_key ≠ b.partition_key then
      Except.error (EHError.ValueError
        "The partition_key does not match the one of the EventDataBatch")
    else
      let traced : EventDataBatch :=
        { b with message := { b.message with body := b.message.body.map (trace_message span) } }
      Except.ok (attach_on_outcome (.batchData traced))
  | .seq es =>
    let es1 : List MsgRecord :=
      if pkTruthy partition_key then
        es.map (fun r => { r with partKeyAnn := partition_key })
      else es
    let es2 := es1.map (trace_message span)
    Except.ok (attach_on_outcome (.batchData
      { partition_key := partition_key,
        message := { body := es2, on_send_complete := false } }))

/-- One attempt of the retry loop: the clock value `time.time()` when the
attempt starts and the link's behavior during that attempt's wait window. -/
structure Attempt where
  now : ℚ
  link : LinkBehavior
deriving DecidableEq

/-- Whether a deadline exists and has expired at time `now`. -/
def deadline_expired : Option ℚ → ℚ → Bool
  | none, _ => false
  | some d, now => decide (d - now ≤ 0)

/-- Modelled from the spec: the generic bounded-retry engine
`_do_retryable_operation` (defined in `_client_base_async.py`, which is not
among the sampled sources), specialised to the `_send_event_data` operation.
Spec 4.2: on each attempt compute the remaining time and fail with a timeout
error carrying the last error when the deadline is exhausted; invoke the
operation with the absolute deadline and the last error; return on success;
on a retryable failure retain the error and retry, on a fatal failure or
exhausted attempts propagate. -/
def do_retryable_operation (deadline : Option ℚ) (retryable : EHError → Bool) :
    ProducerState → Option EHError → List Attempt →
    List TransportAction × ProducerState × Option EHError
  | s, le, [] => ([], s, some (timeout_error_of le))
  | s, le, a :: rest =>
    if deadline_expired deadline a.now then ([], s, some (timeout_error_of le))
    else
      match send_event_data s a.link deadline a.now le with
      | (tr, s1, none) => (tr, s1, none)
      | (tr, s1, some e) =>
        if retryable e then
          match do_retryable_operation deadline retryable s1 (some e) rest with
          | (tr2, s2, r) => (tr ++ tr2, s2, r)
        else (tr, s1, some e)

/-- `EventHubProducer._send_event_data_with_retry`: compute the absolute
deadline from the caller timeout (Python-falsy timeouts mean no deadline) and
run the retry engine. -/
def send_event_data_with_retry (s : ProducerState) (timeout : Option ℚ)
    (start : ℚ) (retryable : EHError → Bool) (attempts : List Attempt) :
    List TransportAction × ProducerState × Option EHError :=
  let deadline : Option ℚ :=
    match timeout with
    | none => none
    | some t => if t = 0 then none else some (start + t)
  do_retryable_operation deadline retryable s none attempts

/-- `EventHubProducer.send` (the body of its `async with self._lock` critical
section; the lock itself is modelled by `sendProgram` below): check the
producer is not closed (`_check_closed`, modelled from the spec's ClosedError
row), wrap the input, store the wrapper's message as the unsent set, and run
the retrying send. -/
def send (s : ProducerState) (event_data : WrapInput) (partition_key : Option String)
    (span : Option Unit) (timeout : Option ℚ) (now : ℚ) (retryable : EHError → Bool)
    (attempts : List Attempt) : List TransportAction × ProducerState × Option EHError :=
  if s.closed then ([], s, some EHError.ClientClosedError)
  else
    match wrap_eventdata event_data span partition_key with
    | Except.error e => ([], s, some e)
    | Except.ok w =>
      let s1 : ProducerState := { s with unsent_events := [w.message] }
      send_event_data_with_retry s1 timeout now retryable attempts

/-- Modelled from the spec: `ConsumerProducerMixin.close` (defined in
`_client_base_async.py`, which is not among the sampled sources).  Spec 4.5:
idempotent teardown — release the link handle when one exists, releasing a
handle that does not exist is a no-op, and mark the producer closed. -/
def mixin_close (s : ProducerState) : List TransportAction × ProducerState :=
  if s.handler_open then
    ([TransportAction.teardown], { s with handler_open := false, closed := true })
  else ([], { s with closed := true })

/-- `EventHubProducer.close` (the body of its `async with self._lock` critical
section; the lock itself is modelled by `closeProgram` below). -/
def close (s : ProducerState) : List TransportAction × ProducerState :=
  mixin_close s

/-!
Concurrency model for the exclusivity lock (`self._lock`).  Each public
operation of a task is a sequence of atomic actions: acquire the producer's
lock, perform the operation's transport actions, release the lock.  A
scheduler may interleave two tasks' actions arbitrarily; a schedule is valid
when it respects asyncio lock semantics (acquire only succeeds when the lock
is free, release only by the holder).
-/

/-- An atomic step of a task: acquiring or releasing the producer lock, or a
transport interaction performed while holding it. -/
inductive LockAction
  | acquire (tid : Nat)
  | release (tid : Nat)
  | act (tid : Nat) (a : TransportAction)
deriving DecidableEq

/-- Whether an action touches the lock. -/
def isLockOp : LockAction → Bool
  | .acquire _ => true
  | .release _ => true
  | .act _ _ => false

/-- Validity of a schedule with respect to the lock: the state is the current
holder (`none` when free); acquiring requires a free lock, releasing requires
being the holder. -/
def lockOk : Option Nat → List LockAction → Bool
  | _, [] => true
  | st, .acquire t :: rest => st == none && lockOk (some t) rest
  | st, .release t :: rest => st == some t && lockOk none rest
  | st, .act _ _ :: rest => lockOk st rest

/-- An interleaving of two tasks' action sequences into one schedule. -/
inductive Interleaving : List LockAction → List LockAction → List LockAction → Prop
  | nil : Interleaving [] [] []
  | left {a : LockAction} {xs ys zs : List LockAction} :
      Interleaving xs ys zs → Interleaving (a :: xs) ys (a :: zs)
  | right {b : LockAction} {xs ys zs : List LockAction} :
      Interleaving xs ys zs → Interleaving xs (b :: ys) (b :: zs)

/-- A critical section: acquire, run the body, release. -/
def criticalSection (tid : Nat) (body : List LockAction) : List LockAction :=
  LockAction.acquire tid :: body ++ [LockAction.release tid]

/-- Task `tid` running `EventHubProducer.send` (`async with self._lock:`
around the whole wrap+send+retry body). -/
def sendProgram (tid : Nat) (s : ProducerState) (event_data : WrapInput)
    (partition_key : Option String) (span : Option Unit) (timeout : Option ℚ)
    (now : ℚ) (retryable : EHError → Bool) (attempts : List Attempt) : List LockAction :=
  criticalSection tid
    ((send s event_data partition_key span timeout now retryable attempts).1.map
      (LockAction.act tid))

/-- Task `tid` running `EventHubProducer.close` (`async with self._lock:`
around the teardown). -/
def closeProgram (tid : Nat) (s : ProducerState) : List LockAction :=
  criticalSection tid ((close s).1.map (LockAction.act tid))

/-! Helper lemmas. -/

theorem interleaving_nil_left {xs ys zs : List LockAction} (h : Interleaving xs ys zs)
    (hx : xs = []) : zs = ys := by
  induction h with
  | nil => rfl
  | left h ih => simp at hx
  | right h ih => simp_all

theorem interleaving_symm {xs ys zs : List LockAction} (h : Interleaving xs ys zs) :
    Interleaving ys xs zs := by
  induction h with
  | nil => exact .nil
  | left h ih => exact .right ih
  | right h ih => exact .left ih

theorem interleaving_append : ∀ xs ys : List LockAction, Interleaving xs ys (xs ++ ys)
  | [], ys => by
    induction ys with
    | nil => exact .nil
    | cons b ys ih => exact .right ih
  | a :: xs, ys => .left (interleaving_append xs ys)

/-- While task `t` holds the lock and its remaining actions are lock-free up
to its final release, the other task (whose next action is an acquire) cannot
be scheduled: every valid schedule runs `t` to its release first. -/
theorem lock_held_run (t t2 : Nat) :
    ∀ l1 ys zs : List LockAction,
      (∀ a ∈ l1, isLockOp a = false) →
      Interleaving (l1 ++ [LockAction.release t]) (LockAction.acquire t2 :: ys) zs →
      lockOk (some t) zs = true →
      zs = l1 ++ LockAction.release t :: LockAction.acquire t2 :: ys := by
  intro l1
  induction l1 with
  | nil =>
    intro ys zs hl hin hok
    rw [List.nil_append] at hin
    cases hin with
    | left h => simp [interleaving_nil_left h rfl]
    | right h => simp [lockOk] at hok
  | cons a l1 ih =>
    intro ys zs hl hin hok
    rw [List.cons_append] at hin
    cases hin with
    | left h =>
      have ha : isLockOp a = false := hl a (by simp)
      cases a with
      | acquire u => simp [isLockOp] at ha
      | release u => simp [isLockOp] at ha
      | act u x =>
        rw [lockOk] at hok
        have := ih ys _ (fun b hb => hl b (by simp [hb])) h hok
        simp [this]
    | right h => simp [lockOk] at hok

/-- Two lock-protected critical sections never interleave: every valid
schedule is one of the two sequential orders. -/
theorem mutex_seq (t1 t2 : Nat) (b1 b2 : List LockAction)
    (h1 : ∀ a ∈ b1, isLockOp a = false) (h2 : ∀ a ∈ b2, isLockOp a = false)
    (zs : List LockAction)
    (hin : Interleaving (criticalSection t1 b1) (criticalSection t2 b2) zs)
    (hok : lockOk none zs = true) :
    zs = criticalSection t1 b1 ++ criticalSection t2 b2 ∨
      zs = criticalSection t2 b2 ++ criticalSection t1 b1 := by
  unfold criticalSection at hin ⊢
  cases hin with
  | left h =>
    left
    rw [lockOk] at hok
    simp only [beq_self_eq_true, Bool.true_and] at hok
    have := lock_held_run t1 t2 b1 _ _ h1 h hok
    simp [this]
  | right h =>
    right
    rw [lockOk] at hok
    simp only [beq_self_eq_true, Bool.true_and] at hok
    have := lock_held_run t2 t1 b2 _ _ h2 (interleaving_symm h) hok
    simp [this]

/-- Shape of one send attempt that reaches the wait: the trace is exactly
open, the timeout-setting actions, one enqueue of the whole unsent set, and
one wait; afterwards the unsent set is the link-reported pending list. -/
theorem send_attempt_shape (s : ProducerState) (link : LinkBehavior)
    (timeout_time : Option ℚ) (now : ℚ) (le : Option EHError)
    (tr0 : List TransportAction) (s2 : ProducerState)
    (hne : s.unsent_events.isEmpty = false)
    (hsm : set_msg_timeout { s with handler_open := true } timeout_time now le
      = (tr0, s2, none)) :
    (send_event_data s link timeout_time now le).1
      = TransportAction.openLink :: tr0 ++
          [TransportAction.enqueue s.unsent_events, TransportAction.wait] ∧
    (send_event_data s link timeout_time now le).2.1.unsent_events = link.pending := by
  simp only [send_event_data, hne, Bool.false_eq_true, if_false, hsm]
  cases link.callback <;>
    · simp only [on_outcome]
      split
      · split <;> split <;> simp
      · simp

/-! Claim theorems. -/

/-- C10: if the unsent-events list is empty when a send attempt runs, the
attempt returns success immediately and has no effect — the link is not
opened, the deadline is not checked (no timeout error even when the remaining
time is non-positive), nothing is enqueued, and the producer state is
unchanged. -/
theorem C10_empty_unsent_attempt_is_noop (s : ProducerState) (link : LinkBehavior)
    (timeout_time : Option ℚ) (now : ℚ) (le : Option EHError)
    (h : s.unsent_events = []) :
    send_event_data s link timeout_time now le = ([], s, none) := by
  simp [send_event_data, h]

/-- Witness for C10 at a concrete input whose deadline is already expired. -/
theorem C10_empty_unsent_attempt_is_noop_witness :
    (⟨[], none, none, false, 0, false⟩ : ProducerState).unsent_events = [] ∧
    send_event_data ⟨[], none, none, false, 0, false⟩ ⟨[], none⟩ (some 1) 5 none
      = ([], ⟨[], none, none, false, 0, false⟩, none) :=
  ⟨rfl, C10_empty_unsent_attempt_is_noop _ _ _ _ _ rfl⟩

/-- C4 counterexample: the claim quantifies over every send attempt with an
expired deadline, but (first conjunct) an attempt with an empty unsent set
returns success and raises no timeout error even though the deadline is
expired, and (second conjunct) when a last error exists the attempt raises
that error itself (here a transport condition, not a timeout error). -/
theorem C4_counterexample :
    ((1 : ℚ) - 5 ≤ 0 ∧
      send_event_data ⟨[], none, none, false, 0, false⟩ ⟨[], none⟩ (some 1) 5 none
        = ([], ⟨[], none, none, false, 0, false⟩, none)) ∧
    (send_event_data ⟨[⟨[⟨1, false, none⟩], false⟩], none, none, false, 0, false⟩
        ⟨[], none⟩ (some 1) 5 (some (EHError.TransportCondition 7))).2.2
      = some (EHError.TransportCondition 7) := by
  refine ⟨⟨by norm_num, by simp [send_event_data]⟩,
    by norm_num [send_event_data, set_msg_timeout, timeout_error_of]⟩

/-- C4 (amended): for every send attempt with a nonempty unsent set and a
deadline whose remaining time is non-positive at the start, the attempt fails
immediately, raising the last observed error itself when one exists (or a
generic timeout error otherwise); the link is opened but no message timeout
is set, nothing is enqueued, and no wait occurs. -/
theorem C4_expired_deadline_fails_before_transport (s : ProducerState)
    (link : LinkBehavior) (d now : ℚ) (le : Option EHError)
    (hne : s.unsent_events.isEmpty = false)
    (hd : d ≠ 0) (hexp : d - now ≤ 0) :
    send_event_data s link (some d) now le
      = ([TransportAction.openLink], { s with handler_open := true },
          some (timeout_error_of le)) := by
  simp [send_event_data, hne, set_msg_timeout, hd, hexp]

/-- Witness for the amended C4. -/
theorem C4_expired_deadline_fails_before_transport_witness :
    (([(⟨[⟨1, false, none⟩], false⟩ : AmqpMessage)]).isEmpty = false ∧
      (1 : ℚ) ≠ 0 ∧ (1 : ℚ) - 5 ≤ 0) ∧
    send_event_data ⟨[⟨[⟨1, false, none⟩], false⟩], none, none, false, 0, false⟩
        ⟨[], none⟩ (some 1) 5 none
      = ([TransportAction.openLink],
          ⟨[⟨[⟨1, false, none⟩], false⟩], none, none, true, 0, false⟩,
          some (EHError.OperationTimeoutError "Send operation timed out")) :=
  ⟨⟨by decide, by norm_num, by norm_num⟩,
    C4_expired_deadline_fails_before_transport _ _ _ _ _ (by decide) (by norm_num)
      (by norm_num)⟩

/-- C6: under a fixed deadline, when two attempts at strictly increasing clock
values both set the link's per-message timeout, the value set by the later
attempt is strictly smaller than the value set by the earlier one. -/
theorem C6_remaining_time_strictly_decreases (s s' : ProducerState) (d t1 t2 : ℚ)
    (le le' : Option EHError)
    (hd : d ≠ 0) (h12 : t1 < t2) (h2 : 0 < d - t2) :
    (set_msg_timeout s' (some d) t2 le').2.1.handler_msg_timeout
      < (set_msg_timeout s (some d) t1 le).2.1.handler_msg_timeout := by
  have h1 : 0 < d - t1 := by linarith
  simp only [set_msg_timeout, if_neg hd, if_neg (not_le.mpr h1), if_neg (not_le.mpr h2)]
  have hlt : d - t2 < d - t1 := by linarith
  have := mul_lt_mul_of_pos_right hlt (show (0 : ℚ) < 1000 by norm_num)
  simpa using this

/-- Witness for C6. -/
theorem C6_remaining_time_strictly_decreases_witness :
    ((10 : ℚ) ≠ 0 ∧ (1 : ℚ) < 2 ∧ (0 : ℚ) < 10 - 2) ∧
    (set_msg_timeout ⟨[], none, none, false, 0, false⟩ (some 10) 2 none).2.1.handler_msg_timeout
      < (set_msg_timeout ⟨[], none, none, false, 0, false⟩ (some 10) 1 none).2.1.handler_msg_timeout :=
  ⟨⟨by norm_num, by norm_num, by norm_num⟩,
    C6_remaining_time_strictly_decreases _ _ _ _ _ _ _ (by norm_num) (by norm_num)
      (by norm_num)⟩

/-- C1: wrapping a pre-built batch with a truthy explicit partition key that
differs from the batch's own key raises the validation error, and `send` as a
whole raises it with an empty transport trace and an unchanged producer state
— no open, enqueue or wait happens before or after the failure. -/
theorem C1_batch_key_mismatch_no_transport (s : ProducerState)
    (b : EventDataBatch) (pk : Option String) (span : Option Unit)
    (timeout : Option ℚ) (now : ℚ) (retryable : EHError → Bool)
    (attempts : List Attempt)
    (hclosed : s.closed = false)
    (htruthy : pkTruthy pk = true)
    (hdiff : pk ≠ b.partition_key) :
    wrap_eventdata (.batch b) span pk
      = Except.error (EHError.ValueError
          "The partition_key does not match the one of the EventDataBatch") ∧
    send s (.batch b) pk span timeout now retryable attempts
      = ([], s, some (EHError.ValueError
          "The partition_key does not match the one of the EventDataBatch")) := by
  have hw : wrap_eventdata (.batch b) span pk
      = Except.error (EHError.ValueError
          "The partition_key does not match the one of the EventDataBatch") := by
    simp [wrap_eventdata, htruthy, hdiff]
  exact ⟨hw, by simp [send, hclosed, hw]⟩

/-- Witness for C1. -/
theorem C1_batch_key_mismatch_no_transport_witness :
    ((⟨[], none, none, false, 0, false⟩ : ProducerState).closed = false ∧
      pkTruthy (some "A") = true ∧ (some "A" : Option String) ≠ some "B") ∧
    wrap_eventdata (.batch ⟨some "B", ⟨[⟨1, false, none⟩], false⟩⟩) none (some "A")
      = Except.error (EHError.ValueError
          "The partition_key does not match the one of the EventDataBatch") ∧
    send ⟨[], none, none, false, 0, false⟩
        (.batch ⟨some "B", ⟨[⟨1, false, none⟩], false⟩⟩) (some "A") none none 0
        (fun _ => false) []
      = ([], ⟨[], none, none, false, 0, false⟩,
          some (EHError.ValueError
            "The partition_key does not match the one of the EventDataBatch")) :=
  ⟨⟨rfl, by decide, by decide⟩,
    C1_batch_key_mismatch_no_transport _ _ _ _ _ _ _ _ rfl (by decide) (by decide)⟩

/-- C9: for a pre-built batch, a falsy caller key (none or the empty string)
never raises — even when the batch carries a different non-empty key — and a
caller key equal to the batch's own key is accepted; in every accepted case
the returned wrapper is the batch itself with the same partition key, each
contained record traced, and the delivery-outcome callback attached. -/
theorem C9_batch_accepted_cases (b : EventDataBatch) (span : Option Unit)
    (pk : Option String)
    (h : pkTruthy pk = false ∨ pk = b.partition_key) :
    wrap_eventdata (.batch b) span pk
      = Except.ok (WrappedData.batchData
          { partition_key := b.partition_key,
            message := { body := b.message.body.map (trace_message span),
                         on_send_complete := true } }) := by
  rcases h with h | h
  · simp [wrap_eventdata, h, attach_on_outcome]
  · subst h
    simp [wrap_eventdata, attach_on_outcome]

/-- Witness for C9: the empty-string key is accepted although the batch
carries the different key "B". -/
theorem C9_batch_accepted_cases_witness :
    (pkTruthy (some "") = false ∨ (some "" : Option String) = some "B") ∧
    wrap_eventdata (.batch ⟨some "B", ⟨[⟨1, false, none⟩], false⟩⟩) none (some "")
      = Except.ok (WrappedData.batchData
          ⟨some "B", ⟨[⟨1, true, none⟩], true⟩⟩) :=
  ⟨Or.inl (by decide),
    C9_batch_accepted_cases ⟨some "B", ⟨[⟨1, false, none⟩], false⟩⟩ none (some "")
      (Or.inl (by decide))⟩

/-- C2 counterexample: a non-`Ok` outcome can resolve silently as success —
at the first input the delivery callback reports an `Error` outcome whose
carried condition is `None`, and the attempt raises nothing; at the second
input an `Ok` outcome succeeds but the unsent set is not cleared, it holds
the link-reported pending message. -/
theorem C2_counterexample :
    ((send_event_data ⟨[⟨[⟨1, false, none⟩], false⟩], none, none, false, 0, false⟩
        ⟨[], some (MessageSendResult.Error, none)⟩ none 0 none).2.1.outcome
      = some MessageSendResult.Error ∧
    (send_event_data ⟨[⟨[⟨1, false, none⟩], false⟩], none, none, false, 0, false⟩
        ⟨[], some (MessageSendResult.Error, none)⟩ none 0 none).2.2 = none) ∧
    ((send_event_data ⟨[⟨[⟨1, false, none⟩], false⟩], none, none, false, 0, false⟩
        ⟨[⟨[⟨2, false, none⟩], false⟩], some (MessageSendResult.Ok, none)⟩
        none 0 none).2.2 = none ∧
    (send_event_data ⟨[⟨[⟨1, false, none⟩], false⟩], none, none, false, 0, false⟩
        ⟨[⟨[⟨2, false, none⟩], false⟩], some (MessageSendResult.Ok, none)⟩
        none 0 none).2.1.unsent_events = [⟨[⟨2, false, none⟩], false⟩]) := by
  refine ⟨⟨?_, ?_⟩, ?_, ?_⟩ <;> simp [send_event_data, set_msg_timeout, on_outcome]

/-- C2 (amended): after a send attempt's wait completes with the delivery
callback having fired with outcome `o` and condition `c`, the stored outcome
is mapped as follows: `Ok` yields success with the unsent set replaced by the
link-reported pending records; `Timeout` raises a timeout error; `Error`
raises the carried condition when one is present and otherwise resolves as
success (so a non-`Ok` outcome with no condition does not raise, refuting the
original claim's universal "every non-Ok outcome raises"). -/
theorem C2_outcome_mapping (s : ProducerState) (link : LinkBehavior)
    (timeout_time : Option ℚ) (now : ℚ) (le : Option EHError)
    (o : MessageSendResult) (c : Option EHError)
    (tr0 : List TransportAction) (s2 : ProducerState)
    (hcb : link.callback = some (o, c))
    (hne : s.unsent_events.isEmpty = false)
    (hsm : set_msg_timeout { s with handler_open := true } timeout_time now le
      = (tr0, s2, none)) :
    (o = MessageSendResult.Ok →
      (send_event_data s link timeout_time now le).2.2 = none ∧
      (send_event_data s link timeout_time now le).2.1.unsent_events = link.pending) ∧
    (o = MessageSendResult.Timeout →
      (send_event_data s link timeout_time now le).2.2
        = some (EHError.OperationTimeoutError "Send operation timed out")) ∧
    (o = MessageSendResult.Error →
      (send_event_data s link timeout_time now le).2.2 = c ∧
      (send_event_data s link timeout_time now le).2.1.unsent_events = link.pending) := by
  simp only [send_event_data, hne, Bool.false_eq_true, if_false, hsm, hcb, on_outcome]
  cases o <;> cases c <;> simp

/-- Witness for the amended C2 (the `Ok` arm at a concrete input). -/
theorem C2_outcome_mapping_witness :
    ((⟨[], some (MessageSendResult.Ok, none)⟩ : LinkBehavior).callback
        = some (MessageSendResult.Ok, none) ∧
      ([(⟨[⟨1, false, none⟩], false⟩ : AmqpMessage)]).isEmpty = false) ∧
    ((send_event_data ⟨[⟨[⟨1, false, none⟩], false⟩], none, none, false, 0, false⟩
        ⟨[], some (MessageSendResult.Ok, none)⟩ none 0 none).2.2 = none ∧
      (send_event_data ⟨[⟨[⟨1, false, none⟩], false⟩], none, none, false, 0, false⟩
        ⟨[], some (MessageSendResult.Ok, none)⟩ none 0 none).2.1.unsent_events
        = (⟨[], some (MessageSendResult.Ok, none)⟩ : LinkBehavior).pending) :=
  ⟨⟨rfl, by decide⟩,
    (C2_outcome_mapping ⟨[⟨[⟨1, false, none⟩], false⟩], none, none, false, 0, false⟩
      ⟨[], some (MessageSendResult.Ok, none)⟩ none 0 none MessageSendResult.Ok none
      [] ⟨[⟨[⟨1, false, none⟩], false⟩], none, none, true, 0, false⟩
      rfl (by decide) rfl).1 rfl⟩

/-- C3 counterexample: the single-slot outcome store is not cleared before an
attempt — at this input the previous attempt's stale `Ok` outcome survives
(the link never invokes the callback during this attempt's wait), is read as
the current attempt's result, and the attempt resolves as success. -/
theorem C3_counterexample :
    (⟨[⟨[⟨1, false, none⟩], false⟩], some MessageSendResult.Ok, none, false, 0, false⟩
        : ProducerState).outcome = some MessageSendResult.Ok ∧
    (⟨[⟨[⟨1, false, none⟩], false⟩], none⟩ : LinkBehavior).callback = none ∧
    (send_event_data
        ⟨[⟨[⟨1, false, none⟩], false⟩], some MessageSendResult.Ok, none, false, 0, false⟩
        ⟨[⟨[⟨1, false, none⟩], false⟩], none⟩ none 0 none).2.2 = none ∧
    (send_event_data
        ⟨[⟨[⟨1, false, none⟩], false⟩], some MessageSendResult.Ok, none, false, 0, false⟩
        ⟨[⟨[⟨1, false, none⟩], false⟩], none⟩ none 0 none).2.1.outcome
      = some MessageSendResult.Ok := by
  refine ⟨rfl, rfl, ?_, ?_⟩ <;> simp [send_event_data, set_msg_timeout]

/-- C3 (amended): the outcome store is not cleared before an attempt;
instead the delivery callback overwrites it during the wait.  Whenever the
callback fires during an attempt that reaches the wait, the attempt behaves
exactly as if the store had been cleared beforehand — its result is
independent of the previously stored outcome and condition; when the
callback does not fire, a stale outcome from a previous attempt is read
(`C3_counterexample`). -/
theorem C3_callback_overwrites_stale (s : ProducerState) (link : LinkBehavior)
    (timeout_time : Option ℚ) (now : ℚ) (le : Option EHError)
    (o : MessageSendResult) (c : Option EHError)
    (hcb : link.callback = some (o, c))
    (hne : s.unsent_events.isEmpty = false)
    (hok : (set_msg_timeout { s with handler_open := true } timeout_time now le).2.2
      = none) :
    send_event_data s link timeout_time now le
      = send_event_data { s with outcome := none, condition := none } link
          timeout_time now le := by
  obtain ⟨u, oo, cc, ho, hm, cl⟩ := s
  cases timeout_time with
  | none => simp [send_event_data, set_msg_timeout, on_outcome, hne, hcb]
  | some tt =>
    by_cases htt : tt = 0
    · subst htt
      simp [send_event_data, set_msg_timeout, on_outcome, hne, hcb]
    · by_cases hrem : tt - now ≤ 0
      · exfalso
        simp [set_msg_timeout, htt, hrem] at hok
      · simp [send_event_data, set_msg_timeout, on_outcome, hne, hcb, htt, hrem]

/-- Witness for the amended C3: with a stale `Error` outcome and stale
condition in the slot, an attempt whose callback fires behaves exactly as
from a cleared slot. -/
theorem C3_callback_overwrites_stale_witness :
    ((⟨[], some (MessageSendResult.Ok, none)⟩ : LinkBehavior).callback
        = some (MessageSendResult.Ok, none) ∧
      ([(⟨[⟨1, false, none⟩], false⟩ : AmqpMessage)]).isEmpty = false) ∧
    send_event_data
        ⟨[⟨[⟨1, false, none⟩], false⟩], some MessageSendResult.Error,
          some (EHError.TransportCondition 3), false, 0, false⟩
        ⟨[], some (MessageSendResult.Ok, none)⟩ none 0 none
      = send_event_data ⟨[⟨[⟨1, false, none⟩], false⟩], none, none, false, 0, false⟩
          ⟨[], some (MessageSendResult.Ok, none)⟩ none 0 none :=
  ⟨⟨rfl, by decide⟩,
    C3_callback_overwrites_stale
      ⟨[⟨[⟨1, false, none⟩], false⟩], some MessageSendResult.Error,
        some (EHError.TransportCondition 3), false, 0, false⟩
      ⟨[], some (MessageSendResult.Ok, none)⟩ none 0 none MessageSendResult.Ok none
      rfl (by decide) rfl⟩

/-- C5: every attempt that reaches the link enqueues exactly the carried-over
unsent records (all of them, and nothing else) in one enqueue followed by the
single wait, and on return the link-reported pending records become the new
unsent set; consequently a retry attempt enqueues exactly the records the
prior attempt reported still outstanding, never the whole original batch. -/
theorem C5_enqueue_all_then_pending (s : ProducerState) (link1 : LinkBehavior)
    (tt1 : Option ℚ) (now1 : ℚ) (le1 : Option EHError)
    (tr1 : List TransportAction) (s2 : ProducerState)
    (hne : s.unsent_events.isEmpty = false)
    (hsm1 : set_msg_timeout { s with handler_open := true } tt1 now1 le1
      = (tr1, s2, none)) :
    ((send_event_data s link1 tt1 now1 le1).1
        = TransportAction.openLink :: tr1 ++
            [TransportAction.enqueue s.unsent_events, TransportAction.wait] ∧
      (send_event_data s link1 tt1 now1 le1).2.1.unsent_events = link1.pending) ∧
    ∀ (link2 : LinkBehavior) (tt2 : Option ℚ) (now2 : ℚ) (le2 : Option EHError)
      (tr2 : List TransportAction) (s3 : ProducerState),
      link1.pending.isEmpty = false →
      set_msg_timeout
          { (send_event_data s link1 tt1 now1 le1).2.1 with handler_open := true }
          tt2 now2 le2 = (tr2, s3, none) →
      (send_event_data (send_event_data s link1 tt1 now1 le1).2.1 link2 tt2 now2 le2).1
        = TransportAction.openLink :: tr2 ++
            [TransportAction.enqueue link1.pending, TransportAction.wait] := by
  have h1 := send_attempt_shape s link1 tt1 now1 le1 tr1 s2 hne hsm1
  refine ⟨h1, fun link2 tt2 now2 le2 tr2 s3 hp hsm2 => ?_⟩
  have hne2 : (send_event_data s link1 tt1 now1 le1).2.1.unsent_events.isEmpty = false := by
    rw [h1.2]
    exact hp
  have h2 := send_attempt_shape _ link2 tt2 now2 le2 tr2 s3 hne2 hsm2
  rw [h2.1, h1.2]

/-- Witness for C5: the first attempt enqueues the whole unsent set and ends
with the link reporting one other message pending; the retry attempt enqueues
exactly that pending message. -/
theorem C5_enqueue_all_then_pending_witness :
    (([(⟨[⟨1, false, none⟩], false⟩ : AmqpMessage)]).isEmpty = false ∧
      ([(⟨[⟨2, false, none⟩], false⟩ : AmqpMessage)]).isEmpty = false) ∧
    (send_event_data
        (send_event_data ⟨[⟨[⟨1, false, none⟩], false⟩], none, none, false, 0, false⟩
          ⟨[⟨[⟨2, false, none⟩], false⟩], some (MessageSendResult.Timeout, none)⟩
          none 0 none).2.1
        ⟨[], some (MessageSendResult.Ok, none)⟩ none 0 none).1
      = TransportAction.openLink :: [] ++
          [TransportAction.enqueue [⟨[⟨2, false, none⟩], false⟩], TransportAction.wait] :=
  ⟨⟨by decide, by decide⟩,
    (C5_enqueue_all_then_pending
        ⟨[⟨[⟨1, false, none⟩], false⟩], none, none, false, 0, false⟩
        ⟨[⟨[⟨2, false, none⟩], false⟩], some (MessageSendResult.Timeout, none)⟩
        none 0 none []
        ⟨[⟨[⟨1, false, none⟩], false⟩], none, none, true, 0, false⟩
        (by decide) rfl).2
      ⟨[], some (MessageSendResult.Ok, none)⟩ none 0 none [] _ (by decide) rfl⟩

/-- C7: the producer's exclusivity lock serializes public operations — in any
valid schedule, the critical section of one `send` and that of a second
`send` or of `close` never interleave: every lock-respecting interleaving of
the two is one of the two sequential orders, so no two sends interleave their
enqueues on the shared link and close never tears the link down mid-send. -/
theorem C7_lock_serializes_operations (t1 t2 : Nat)
    (s1 : ProducerState) (e1 : WrapInput) (pk1 : Option String) (sp1 : Option Unit)
    (to1 : Option ℚ) (n1 : ℚ) (r1 : EHError → Bool) (a1 : List Attempt)
    (q zs : List LockAction)
    (hq : (∃ s2 e2 pk2 sp2 to2 n2 r2 a2, q = sendProgram t2 s2 e2 pk2 sp2 to2 n2 r2 a2) ∨
          ∃ s2, q = closeProgram t2 s2)
    (hin : Interleaving (sendProgram t1 s1 e1 pk1 sp1 to1 n1 r1 a1) q zs)
    (hok : lockOk none zs = true) :
    zs = sendProgram t1 s1 e1 pk1 sp1 to1 n1 r1 a1 ++ q ∨
      zs = q ++ sendProgram t1 s1 e1 pk1 sp1 to1 n1 r1 a1 := by
  have hfree : ∀ (tid : Nat) (tr : List TransportAction),
      ∀ a ∈ tr.map (LockAction.act tid), isLockOp a = false := by
    intro tid tr a ha
    simp only [List.mem_map] at ha
    obtain ⟨x, _, rfl⟩ := ha
    rfl
  rcases hq with ⟨s2, e2, pk2, sp2, to2, n2, r2, a2, rfl⟩ | ⟨s2, rfl⟩
  · exact mutex_seq t1 t2 _ _ (hfree t1 _) (hfree t2 _) zs hin hok
  · exact mutex_seq t1 t2 _ _ (hfree t1 _) (hfree t2 _) zs hin hok

/-- Witness for C7 at a concrete schedule of one send and one close. -/
theorem C7_lock_serializes_operations_witness :
    lockOk none
        (sendProgram 0 ⟨[], none, none, false, 0, true⟩ (.seq []) none none none 0
            (fun _ => false) [] ++
          closeProgram 1 ⟨[], none, none, false, 0, false⟩) = true ∧
    (sendProgram 0 ⟨[], none, none, false, 0, true⟩ (.seq []) none none none 0
          (fun _ => false) [] ++
        closeProgram 1 ⟨[], none, none, false, 0, false⟩
      = sendProgram 0 ⟨[], none, none, false, 0, true⟩ (.seq []) none none none 0
            (fun _ => false) [] ++
          closeProgram 1 ⟨[], none, none, false, 0, false⟩ ∨
      sendProgram 0 ⟨[], none, none, false, 0, true⟩ (.seq []) none none none 0
            (fun _ => false) [] ++
          closeProgram 1 ⟨[], none, none, false, 0, false⟩
        = closeProgram 1 ⟨[], none, none, false, 0, false⟩ ++
            sendProgram 0 ⟨[], none, none, false, 0, true⟩ (.seq []) none none none 0
              (fun _ => false) []) :=
  ⟨by decide,
    C7_lock_serializes_operations 0 1 ⟨[], none, none, false, 0, true⟩ (.seq []) none
      none none 0 (fun _ => false) [] _ _
      (Or.inr ⟨⟨[], none, none, false, 0, false⟩, rfl⟩)
      (interleaving_append _ _) (by decide)⟩

/-- C8: `close` is idempotent — over two consecutive closes the underlying
teardown is performed at most once, and the second call is a no-op rather
than an error: it performs no transport action and leaves the state as the
first close left it. -/
theorem C8_close_idempotent (s : ProducerState) :
    (close (close s).2).1 = [] ∧
    (close (close s).2).2 = (close s).2 ∧
    ((close s).1 ++ (close (close s).2).1).count TransportAction.teardown ≤ 1 := by
  obtain ⟨u, oo, cc, ho, hm, cl⟩ := s
  cases ho <;> simp [close, mixin_close]

end EH
